import Mathlib

/-! Verification development for the serial-port logger
(src/serial_port_logger/serial_port_logger.py and its caller
src/serial_port_logger/app.py).

The Python class `SerialPortLogger` is shallowly embedded below:
strings become `List Char`, time values become rationals, the
Tkinter output widget and the status-callback become an emitted
event trace, and the filesystem becomes an explicit list of file
contents indexed by the active-file pointer.  Each Python method is
translated to a Lean function on this state; the theorems at the
end settle the spec's claims against these functions.
-/

namespace SerialPortLogger

/-- The default whitespace set of Python `str.strip()`, restricted to the
characters that can occur here (space, tab, newline, carriage return,
vertical tab, form feed). -/
def isPySpace (c : Char) : Bool :=
  c == ' ' || c == '\t' || c == '\n' || c == '\r' || c == '\x0b' || c == '\x0c'

/-- Python `line.strip()`: drop leading and trailing whitespace. -/
def pyStrip (s : List Char) : List Char :=
  ((s.dropWhile isPySpace).reverse.dropWhile isPySpace).reverse

/-- Python `buffer.split("\n", 1)` when `"\n" in buffer`:
returns the part before the first newline and the part after it,
or `none` when the buffer holds no newline. -/
def breakNL : List Char → Option (List Char × List Char)
  | [] => none
  | c :: cs =>
      if c = '\n' then some ([], cs)
      else
        match breakNL cs with
        | none => none
        | some p => some (c :: p.1, p.2)

/-- The inner `while "\n" in buffer` loop of `log_data` (lines 74-78),
viewed as a pure function: `cur` is the part of the current segment
already scanned.  Splits the buffer at each newline, strips every
complete segment, and keeps the newline-free remainder. -/
def processAux (cur : List Char) : List Char → List (List Char) × List Char
  | [] => ([], cur)
  | c :: cs =>
      if c = '\n' then
        let p := processAux [] cs
        (pyStrip cur :: p.1, p.2)
      else processAux (cur ++ [c]) cs

/-- One pass of the line-reassembly loop over a buffer: the list of
stripped complete lines, and the carried-over remainder. -/
def processBuffer (buf : List Char) : List (List Char) × List Char :=
  processAux [] buf

/-- Feeding a sequence of chunks through `log_data`'s reassembly,
carrying the buffer across calls (lines 65, 71-76): returns all
emitted stripped lines in order and the final buffer. -/
def feedChunks (buf : List Char) : List (List Char) → List (List Char) × List Char
  | [] => ([], buf)
  | c :: cs =>
      let p := processBuffer (buf ++ c)
      let q := feedChunks p.2 cs
      (p.1 ++ q.1, q.2)

/-! Section: State model of the `SerialPortLogger` object -/

/-- Colors pushed to `status_callback`: green = Connected,
yellow = Stale, red = Disconnected. -/
inductive Color
  | green
  | yellow
  | red
deriving DecidableEq, Repr

/-- Observable actions of the logger: a text insertion into the GUI
output widget, a status-callback invocation, a `time.sleep`, and a
`serial_port.open()` call. -/
inductive Event
  | line (text : List Char)
  | status (c : Color)
  | sleepFor (d : ℚ)
  | reopen
deriving DecidableEq

/-- The mutable attributes of the Python `SerialPortLogger` object
(`__init__`, lines 17-25), plus the filesystem it writes.
`config` is the `log_max_size` entry of the configuration mapping,
absent when the key is missing.  `files` lists the contents of the
log files in creation order and `log_file` is the index of the active
one; in the source `log_file` starts as `None` and `app.py` calls
`create_new_log_file` before any write, so here it starts at 0 and is
meaningful only once `create_new_log_file` has run.  `buffer` is the
local variable of `log_data` (line 65), lifted into the state so the
loop can be stepped one batch at a time.  `serial_port` is `none`
when no handle exists and `some b` for a handle whose `is_open` is
`b`.  `read_only_files` records the files chmod-ed to read-only. -/
structure LoggerState where
  config : Option ℕ
  log_file : ℕ
  files : List (List Char)
  current_log_size : ℕ
  last_data_received : ℚ
  is_logging : Bool
  buffer : List Char
  serial_port : Option Bool
  read_only_files : List ℕ
deriving DecidableEq

/-- The state built by `__init__` (lines 17-25) at time `t0`:
no handle, not logging, zero tracked size, last-data stamp `t0`. -/
def init_state (config : Option ℕ) (t0 : ℚ) : LoggerState :=
  ⟨config, 0, [], 0, t0, false, [], none, []⟩

/-- Method `create_new_log_file` (lines 38-46): picks a fresh path and points
`self.log_file` at it; the file itself appears (empty) on first open. -/
def create_new_log_file (s : LoggerState) : LoggerState :=
  { s with log_file := s.files.length, files := s.files ++ [[]] }

/-- Method `write_to_log_file` (lines 89-97): appends `data` to the active
file and adds its length to the tracked `current_log_size`. -/
def write_to_log_file (s : LoggerState) (data : List Char) : LoggerState :=
  { s with
      files := s.files.set s.log_file ((s.files.getD s.log_file []) ++ data),
      current_log_size := s.current_log_size + data.length }

/-- Method `rotate_logs_if_needed` (lines 108-115): reads the threshold from
the config with default 1 MiB, compares the active file's on-disk
size against it, and on reaching it switches to a fresh file. -/
def rotate_logs_if_needed (s : LoggerState) : LoggerState :=
  let log_max_size := s.config.getD (1024 * 1024)
  if (s.files.getD s.log_file []).length ≥ log_max_size then create_new_log_file s
  else s

/-- The `if self.serial_port.in_waiting` branch of `log_data`
(lines 68-80) for one batch of decoded text `data`: extend the
buffer, emit every complete stripped line (file write, then GUI line
event, in that order per line), then run the rotation check once for
the batch. -/
def log_data_chunk (s : LoggerState) (data : List Char) : LoggerState × List Event :=
  let s0 := { s with buffer := s.buffer ++ data }
  let p := processBuffer s0.buffer
  let s1 := { s0 with buffer := p.2 }
  let r := p.1.foldl
    (fun acc line =>
      (write_to_log_file acc.1 (line ++ ['\n']),
        acc.2 ++ [Event.line (line ++ ['\n'])]))
    (s1, ([] : List Event))
  (rotate_logs_if_needed r.1, r.2)

/-- One iteration of `log_data`'s outer `while self.is_logging` loop
(lines 66-80) when the port raises no exception: `avail` is what
`self.serial_port.read(self.serial_port.in_waiting)` would return, so
`in_waiting` is truthy exactly when `avail` is nonempty.  When it is
empty the body does nothing at all and the loop re-polls at once. -/
def log_data_iteration (s : LoggerState) (avail : List Char) : LoggerState × List Event :=
  if avail.isEmpty then (s, [])
  else log_data_chunk s avail

/-- The loop body of `check_connection_status` (lines 121-127) run at
time `now`: the color pushed to the status callback, from the elapsed
time since `last_data_received` alone. -/
def check_connection_status_tick (now last_data_received : ℚ) : Color :=
  if now - last_data_received > 60 then Color.yellow else Color.green

/-! Section: Fallible filesystem writes

`log_data` catches only `serial.SerialException` (line 82), so an
`OSError` raised by `open`/`write` inside `write_to_log_file`
propagates out of `log_data` and kills the daemon thread running it. -/

/-- Outcome of a stretch of the read loop under fallible writes: the
state and Sink trace produced so far, and whether an uncaught
exception escaped (after which the `log_data` thread is dead). -/
structure RunResult where
  state : LoggerState
  events : List Event
  crashed : Bool
deriving DecidableEq

/-- Method `write_to_log_file` when the filesystem may reject the write:
`fs_ok data` tells whether appending `data` succeeds.  On failure the
`OSError` propagates to the caller with the state unchanged. -/
def write_to_log_file_fallible (fs_ok : List Char → Bool) (s : LoggerState)
    (data : List Char) : Except Unit LoggerState :=
  if fs_ok data then Except.ok (write_to_log_file s data) else Except.error ()

/-- Function `log_data_chunk` under fallible writes: lines are processed in
order; the first failing write raises out of `log_data` (only
`SerialException` is caught), so the remaining lines are abandoned,
the rotation check does not run, and no Sink event reports the
failure. -/
def log_data_chunk_fallible (fs_ok : List Char → Bool) (s : LoggerState)
    (data : List Char) : RunResult :=
  let s0 := { s with buffer := s.buffer ++ data }
  let p := processBuffer s0.buffer
  let s1 := { s0 with buffer := p.2 }
  let r := p.1.foldl
    (fun acc line =>
      if acc.crashed then acc
      else
        match write_to_log_file_fallible fs_ok acc.state (line ++ ['\n']) with
        | Except.ok st =>
            { acc with state := st,
                       events := acc.events ++ [Event.line (line ++ ['\n'])] }
        | Except.error _ => { acc with crashed := true })
    ⟨s1, [], false⟩
  if r.crashed then r
  else { r with state := rotate_logs_if_needed r.state }

/-- The read loop over successive available batches under fallible
writes: once the thread has crashed, no later batch is processed. -/
def log_data_run (fs_ok : List Char → Bool) (s : LoggerState) :
    List (List Char) → RunResult
  | [] => ⟨s, [], false⟩
  | c :: cs =>
      let r := log_data_chunk_fallible fs_ok s c
      if r.crashed then r
      else
        let q := log_data_run fs_ok r.state cs
        ⟨q.state, r.events ++ q.events, q.crashed⟩

/-! Section: Reconnection, stop, and the failed-interval Sink trace -/

/-- Method `reconnect_after_delay` (lines 131-140): sleeps 600 first, then
reopens the handle if one exists and is closed, then emits green when
the handle is open (always, after a reopen).  When no handle exists
the final `self.serial_port.is_open` dereference raises, modelled as
an error.  No log-file state is touched. -/
def reconnect_after_delay (s : LoggerState) : Except Unit (LoggerState × List Event) :=
  match s.serial_port with
  | none => Except.error ()
  | some is_open =>
      let s1 := if is_open then s else { s with serial_port := some true }
      let evs := [Event.sleepFor 600]
        ++ (if is_open then [] else [Event.reopen])
        ++ [Event.status Color.green]
      Except.ok (s1, evs)

/-- Method `stop_logging` (lines 142-150) with a fallible `os.chmod`: clears
`is_logging`, closes the port when a handle exists (a `Serial` object
is truthy even when closed), then sets the active file read-only.
When `os.chmod` raises, the exception escapes `stop_logging` — there
is no handler — with the flag already cleared and the port already
closed; nothing is reported to the Sink in either case. -/
def stop_logging (chmod_ok : Bool) (s : LoggerState) : Except LoggerState LoggerState :=
  let s1 := { s with is_logging := false }
  let s2 := match s1.serial_port with
            | none => s1
            | some _ => { s1 with serial_port := some false }
  if chmod_ok then
    Except.ok { s2 with read_only_files := s2.read_only_files ++ [s2.log_file] }
  else Except.error s2

/-- Sink trace from a transport failure to a successful reconnection.
The `except serial.SerialException` handler (lines 82-85) emits the
"connection lost" line and a red status, then calls
`reconnect_after_delay`, whose 600-unit sleep ends with a green
status on success (lines 135-140).  The `check_connection_status`
thread (lines 121-129) keeps running on its own cadence throughout;
`ticks` are the times at which its loop body happens to execute
during the backoff window, and each tick pushes the color computed
by `check_connection_status_tick`, which reads only
`last_data_received`.  The sleep and reopen events of the read
thread are elided here: only the Sink-visible status/line events are
kept, in their wall-clock order for this schedule. -/
def failed_interval_trace (last_data_received : ℚ) (ticks : List ℚ) : List Event :=
  [Event.line ("Serial connection lost.\n".toList), Event.status Color.red]
    ++ ticks.map (fun t => Event.status (check_connection_status_tick t last_data_received))
    ++ [Event.status Color.green]

/-! Section: Log Store operation sequences (for the size-counter invariant) -/

/-- The two Log Store operations the read loop performs on the
filesystem state: an append via `write_to_log_file` and a rotation
check via `rotate_logs_if_needed`. -/
inductive StoreOp
  | append (data : List Char)
  | rotate

/-- Run one store operation. -/
def run_store_op (s : LoggerState) : StoreOp → LoggerState
  | StoreOp.append d => write_to_log_file s d
  | StoreOp.rotate => rotate_logs_if_needed s

/-- Run a sequence of store operations. -/
def run_store_ops (s : LoggerState) (ops : List StoreOp) : LoggerState :=
  ops.foldl run_store_op s

/-- Total number of bytes appended by a sequence of store operations. -/
def total_appended : List StoreOp → ℕ
  | [] => 0
  | StoreOp.append d :: ops => d.length + total_appended ops
  | StoreOp.rotate :: ops => total_appended ops


/-! Section: Concrete scenario states used by the claim theorems -/

/-- Session start as `app.py` performs it (construct the logger, then
`create_new_log_file`), with rotation threshold 10 bytes. -/
def rotation_scenario_start : LoggerState :=
  create_new_log_file (init_state (some 10) 0)

/-- The rotation scenario after feeding "ab\n" and then "cdefgh\n". -/
def rotation_scenario_after_two : LoggerState :=
  (log_data_chunk (log_data_chunk rotation_scenario_start ("ab\n".toList)).1
    ("cdefgh\n".toList)).1

/-- The rotation scenario after additionally feeding "ij\n". -/
def rotation_scenario_after_three : LoggerState :=
  (log_data_chunk rotation_scenario_after_two ("ij\n".toList)).1

/-- A filesystem that rejects exactly the write of the line "b\n". -/
def fs_fail_b : List Char → Bool := fun d => d ≠ ("b\n".toList)

/-- Session start for the write-failure scenario, threshold 1000. -/
def write_failure_start : LoggerState :=
  create_new_log_file (init_state (some 1000) 0)

/-- The write-failure scenario: one batch carrying three lines, of
which the second hits the failing write. -/
def write_failure_scenario : RunResult :=
  log_data_run fs_fail_b write_failure_start [("a\nb\nc\n".toList)]

/-- An active session with an open handle, for the stop scenario. -/
def stop_scenario_state : LoggerState :=
  { rotation_scenario_start with is_logging := true, serial_port := some true }

/-- A session just after a transport failure: still flagged as
logging, handle closed, for the reconnection scenario. -/
def reconnect_scenario_state : LoggerState :=
  { rotation_scenario_start with is_logging := true, serial_port := some false }

/-- Start state for the size-counter scenario, threshold 3 bytes. -/
def size_scenario_start : LoggerState :=
  create_new_log_file (init_state (some 3) 0)

/-- Store operations for the size-counter scenario: a 5-byte append,
a rotation (5 ≥ 3), then a 2-byte append into the new file. -/
def size_scenario_ops : List StoreOp :=
  [StoreOp.append ("abcd\n".toList), StoreOp.rotate, StoreOp.append ("x\n".toList)]

/-! Section: Recurrence of `processBuffer` in terms of the first-newline split -/

theorem breakNL_length {buf l r : List Char} (h : breakNL buf = some (l, r)) :
    r.length < buf.length := by
  induction buf generalizing l r with
  | nil => simp [breakNL] at h
  | cons c cs ih =>
      by_cases hc : c = '\n'
      · simp only [breakNL, if_pos hc, Option.some.injEq, Prod.mk.injEq] at h
        obtain ⟨h1, h2⟩ := h
        subst h2
        rw [List.length_cons]
        exact Nat.lt_succ_self _
      · simp only [breakNL, if_neg hc] at h
        cases hcs : breakNL cs with
        | none => rw [hcs] at h; exact absurd h (by simp)
        | some p =>
            rw [hcs] at h
            simp at h
            have := ih (l := p.1) (r := p.2) (by rw [hcs])
            rw [← h.2]
            exact Nat.lt_succ_of_lt this

theorem processAux_of_breakNL_none {buf : List Char} (h : breakNL buf = none)
    (cur : List Char) : processAux cur buf = ([], cur ++ buf) := by
  induction buf generalizing cur with
  | nil => simp [processAux]
  | cons c cs ih =>
      by_cases hc : c = '\n'
      · simp [breakNL, hc] at h
      · simp only [breakNL, if_neg hc] at h
        cases hcs : breakNL cs with
        | none =>
            simp only [processAux, if_neg hc]
            rw [ih hcs]
            simp
        | some p => rw [hcs] at h; exact absurd h (by simp)

theorem processAux_of_breakNL_some {buf l r : List Char}
    (h : breakNL buf = some (l, r)) (cur : List Char) :
    processAux cur buf =
      (pyStrip (cur ++ l) :: (processAux [] r).1, (processAux [] r).2) := by
  induction buf generalizing cur l r with
  | nil => simp [breakNL] at h
  | cons c cs ih =>
      by_cases hc : c = '\n'
      · simp only [breakNL, if_pos hc, Option.some.injEq, Prod.mk.injEq] at h
        obtain ⟨h1, h2⟩ := h
        subst h1
        subst h2
        simp only [processAux, if_pos hc]
        simp
      · simp only [breakNL, if_neg hc] at h
        cases hcs : breakNL cs with
        | none => rw [hcs] at h; exact absurd h (by simp)
        | some p =>
            rw [hcs] at h
            simp only [Option.some.injEq, Prod.mk.injEq] at h
            obtain ⟨h1, h2⟩ := h
            subst h1
            subst h2
            simp only [processAux, if_neg hc]
            rw [ih (l := p.1) (r := p.2) (by rw [hcs])]
            simp

theorem processBuffer_of_breakNL_none {buf : List Char} (h : breakNL buf = none) :
    processBuffer buf = ([], buf) := by
  unfold processBuffer
  rw [processAux_of_breakNL_none h]
  simp

theorem processBuffer_of_breakNL_some {buf l r : List Char}
    (h : breakNL buf = some (l, r)) :
    processBuffer buf = (pyStrip l :: (processBuffer r).1, (processBuffer r).2) := by
  unfold processBuffer
  rw [processAux_of_breakNL_some h]
  simp

/-! Section: The carried buffer never contains a newline, and splitting
respects concatenation -/

theorem breakNL_append_some {a b l r : List Char} (h : breakNL a = some (l, r)) :
    breakNL (a ++ b) = some (l, r ++ b) := by
  induction a generalizing l r with
  | nil => simp [breakNL] at h
  | cons c cs ih =>
      by_cases hc : c = '\n'
      · simp only [breakNL, if_pos hc, Option.some.injEq, Prod.mk.injEq] at h
        obtain ⟨h1, h2⟩ := h
        subst h1
        subst h2
        simp [List.cons_append, breakNL, if_pos hc]
      · simp only [breakNL, if_neg hc] at h
        cases hcs : breakNL cs with
        | none => rw [hcs] at h; exact absurd h (by simp)
        | some p =>
            rw [hcs] at h
            simp only [Option.some.injEq, Prod.mk.injEq] at h
            obtain ⟨h1, h2⟩ := h
            subst h1
            subst h2
            simp only [List.cons_append, breakNL, List.append_eq, if_neg hc]
            rw [ih (l := p.1) (r := p.2) (by rw [hcs])]

theorem breakNL_processBuffer_rest (buf : List Char) :
    breakNL (processBuffer buf).2 = none := by
  suffices H : ∀ n (buf : List Char), buf.length = n →
      breakNL (processBuffer buf).2 = none from H buf.length buf rfl
  intro n
  induction n using Nat.strong_induction_on with
  | _ n ih =>
      intro buf hn
      cases h : breakNL buf with
      | none => rw [processBuffer_of_breakNL_none h]; exact h
      | some p =>
          rw [processBuffer_of_breakNL_some (l := p.1) (r := p.2) (by rw [h])]
          exact ih p.2.length (hn ▸ breakNL_length (l := p.1) (by rw [h])) p.2 rfl

theorem processBuffer_append (a b : List Char) :
    processBuffer (a ++ b) =
      ((processBuffer a).1 ++ (processBuffer ((processBuffer a).2 ++ b)).1,
        (processBuffer ((processBuffer a).2 ++ b)).2) := by
  suffices H : ∀ n (a : List Char), a.length = n →
      processBuffer (a ++ b) =
        ((processBuffer a).1 ++ (processBuffer ((processBuffer a).2 ++ b)).1,
          (processBuffer ((processBuffer a).2 ++ b)).2) from H a.length a rfl
  intro n
  induction n using Nat.strong_induction_on with
  | _ n ih =>
      intro a hn
      cases h : breakNL a with
      | none =>
          rw [processBuffer_of_breakNL_none h]
          simp
      | some p =>
          have ha := processBuffer_of_breakNL_some (l := p.1) (r := p.2) (by rw [h])
          have hab := @processBuffer_of_breakNL_some (a ++ b) p.1 (p.2 ++ b)
            (breakNL_append_some (by rw [h]))
          rw [hab, ha]
          simp only
          rw [ih p.2.length (hn ▸ breakNL_length (l := p.1) (by rw [h])) p.2 rfl]
          simp

theorem feedChunks_eq_processBuffer (cs : List (List Char)) (buf : List Char)
    (h : breakNL buf = none) :
    feedChunks buf cs = processBuffer (buf ++ cs.flatten) := by
  induction cs generalizing buf with
  | nil =>
      simp [feedChunks, processBuffer_of_breakNL_none h]
  | cons c cs ih =>
      simp only [feedChunks, List.flatten_cons]
      rw [ih (processBuffer (buf ++ c)).2 (breakNL_processBuffer_rest _)]
      rw [← List.append_assoc, processBuffer_append (buf ++ c) cs.flatten]

/-! Section: Helper lemmas about the state operations -/

theorem write_to_log_file_last_data (s : LoggerState) (data : List Char) :
    (write_to_log_file s data).last_data_received = s.last_data_received := rfl

theorem rotate_logs_if_needed_last_data (s : LoggerState) :
    (rotate_logs_if_needed s).last_data_received = s.last_data_received := by
  unfold rotate_logs_if_needed create_new_log_file
  dsimp only
  split_ifs <;> rfl

theorem rotate_logs_if_needed_size (s : LoggerState) :
    (rotate_logs_if_needed s).current_log_size = s.current_log_size := by
  unfold rotate_logs_if_needed create_new_log_file
  dsimp only
  split_ifs <;> rfl

theorem foldl_write_lines_last_data (lines : List (List Char)) (s : LoggerState)
    (evs : List Event) :
    ((lines.foldl (fun acc line =>
        (write_to_log_file acc.1 (line ++ ['\n']),
          acc.2 ++ [Event.line (line ++ ['\n'])])) (s, evs)).1).last_data_received
      = s.last_data_received := by
  induction lines generalizing s evs with
  | nil => rfl
  | cons l ls ih => exact ih _ _

theorem run_store_ops_size (ops : List StoreOp) (s : LoggerState) :
    (run_store_ops s ops).current_log_size = s.current_log_size + total_appended ops := by
  induction ops generalizing s with
  | nil => simp [run_store_ops, total_appended]
  | cons op ops ih =>
      cases op with
      | append d =>
          simp only [run_store_ops, List.foldl_cons] at ih ⊢
          rw [ih]
          simp only [run_store_op, write_to_log_file, total_appended]
          omega
      | rotate =>
          simp only [run_store_ops, List.foldl_cons] at ih ⊢
          rw [ih]
          simp only [run_store_op]
          rw [rotate_logs_if_needed_size]
          simp only [total_appended]

theorem foldl_fallible_events_are_lines (fs_ok : List Char → Bool)
    (lines : List (List Char)) (acc : RunResult)
    (hacc : ∀ e ∈ acc.events, ∃ l, e = Event.line l) :
    ∀ e ∈ (lines.foldl (fun acc line =>
        if acc.crashed then acc
        else
          match write_to_log_file_fallible fs_ok acc.state (line ++ ['\n']) with
          | Except.ok st =>
              { acc with state := st,
                         events := acc.events ++ [Event.line (line ++ ['\n'])] }
          | Except.error _ => { acc with crashed := true }) acc).events,
      ∃ l, e = Event.line l := by
  induction lines generalizing acc with
  | nil => exact hacc
  | cons l ls ih =>
      simp only [List.foldl_cons]
      apply ih
      intro e he
      by_cases hc : acc.crashed = true
      · rw [if_pos hc] at he
        exact hacc e he
      · rw [if_neg hc] at he
        unfold write_to_log_file_fallible at he
        by_cases hw : fs_ok (l ++ ['\n']) = true
        · rw [if_pos hw] at he
          simp only [List.mem_append, List.mem_singleton] at he
          rcases he with he | he
          · exact hacc e he
          · exact ⟨l ++ ['\n'], he⟩
        · rw [if_neg hw] at he
          exact hacc e he

theorem log_data_chunk_fallible_events_are_lines (fs_ok : List Char → Bool)
    (s : LoggerState) (data : List Char) :
    ∀ e ∈ (log_data_chunk_fallible fs_ok s data).events, ∃ l, e = Event.line l := by
  unfold log_data_chunk_fallible
  intro e he
  dsimp only at he
  split_ifs at he with hcr
  · exact foldl_fallible_events_are_lines fs_ok _ _ (by intro e h; simp at h) e he
  · exact foldl_fallible_events_are_lines fs_ok _ _ (by intro e h; simp at h) e he

/-! Section: Claim theorems -/

/-- C1: feeding any sequence of text chunks one by one to the line
reassembly loop, carrying the buffer across calls, emits exactly the
same stripped lines in the same order as feeding the single
concatenated chunk in one call. -/
theorem feedChunks_agrees_with_single_feed (chunks : List (List Char)) :
    (feedChunks [] chunks).1 = (processBuffer chunks.flatten).1 := by
  rw [feedChunks_eq_processBuffer chunks [] rfl]
  rfl

/-- C2: contrary to the claim, processing a batch of data in the
Reading state never updates the session's last-data timestamp: after
any number of emitted lines, `last_data_received` still holds the
value set in `__init__`.  The attribute's own comment (line 25) says
it tracks the last data received time for the status update, so the
staleness monitor is measuring from session construction, not from
the last line. -/
theorem log_data_never_updates_last_data_received (s : LoggerState) (data : List Char) :
    ((log_data_chunk s data).1).last_data_received = s.last_data_received := by
  unfold log_data_chunk
  dsimp only
  rw [rotate_logs_if_needed_last_data, foldl_write_lines_last_data]

/-- C3 counterexample: at elapsed time exactly 60 (the staleness
threshold) the monitor emits green (Connected), although the elapsed
time is not strictly below the threshold, refuting "Connected exactly
when elapsed < threshold and Stale exactly when elapsed ≥ threshold". -/
theorem check_connection_status_boundary_counterexample :
    check_connection_status_tick 60 0 = Color.green ∧ ¬ ((60 : ℚ) - 0 < 60) := by
  constructor
  · norm_num [check_connection_status_tick]
  · norm_num

/-- C3 amended: the monitor emits Connected exactly when
elapsed-since-last-data is at most 60, and Stale exactly when it is
strictly greater than 60 (the source compares with strict `>`). -/
theorem check_connection_status_classification (now last : ℚ) :
    (check_connection_status_tick now last = Color.green ↔ now - last ≤ 60) ∧
    (check_connection_status_tick now last = Color.yellow ↔ now - last > 60) := by
  unfold check_connection_status_tick
  split_ifs with h
  · simp [h, not_le.mpr h]
  · simp [h, not_lt.mp h]

/-- C4 counterexample: with threshold 10, after feeding "ab\n" and
"cdefgh\n" a rotation has already occurred — a second file exists and
is active — because the two lines total 10 bytes on disk (not 9), and
the rotation check fires at ≥ 10. -/
theorem rotation_scenario_counterexample :
    rotation_scenario_after_two.files.length = 2 ∧
    rotation_scenario_after_two.log_file = 1 ∧
    (rotation_scenario_after_two.files.getD 0 []).length = 10 := by decide

/-- C4 amended: with threshold 10, feeding "ab\n" causes no rotation;
feeding "cdefgh\n" brings the active file to 10 bytes total, so the
post-batch check rotates to a newly created empty file; feeding
"ij\n" stores that third line in the new file, leaves the old file
untouched, and causes no further rotation. -/
theorem rotation_scenario_amended :
    ((log_data_chunk rotation_scenario_start ("ab\n".toList)).1).files.length = 1 ∧
    rotation_scenario_after_two.files.length = 2 ∧
    rotation_scenario_after_two.log_file = 1 ∧
    rotation_scenario_after_two.files.getD 0 [] = ("ab\ncdefgh\n".toList) ∧
    rotation_scenario_after_two.files.getD 1 [] = [] ∧
    rotation_scenario_after_three.files.length = 2 ∧
    rotation_scenario_after_three.log_file = 1 ∧
    rotation_scenario_after_three.files.getD 1 [] = ("ij\n".toList) ∧
    rotation_scenario_after_three.files.getD 0 [] = ("ab\ncdefgh\n".toList) := by decide

/-- C5: contrary to the claim, when a poll finds no bytes available
the loop body does nothing — no sleep, no timeout, no event — and
returns to the next poll immediately, so the read loop busy-spins:
consecutive polls have neither a timeout nor a sleep between them. -/
theorem log_data_no_yield_between_polls (s : LoggerState) :
    log_data_iteration s [] = (s, []) ∧
    ∀ d, Event.sleepFor d ∉ (log_data_iteration s []).2 := by
  constructor
  · rfl
  · intro d h
    simp [log_data_iteration] at h

/-- C6 counterexample: with a filesystem that rejects the write of
the line "b\n", feeding the single batch "a\nb\nc\n" crashes the read
loop thread: only "a\n" is written and emitted, the failing line AND
the following line "c\n" are dropped, and no Sink event reports the
failure — refuting "the read loop remains active and continues
processing subsequent lines, with at most the failing line dropped". -/
theorem write_failure_counterexample :
    write_failure_scenario.crashed = true ∧
    write_failure_scenario.events = [Event.line ("a\n".toList)] ∧
    write_failure_scenario.state.files.getD 0 [] = ("a\n".toList) := by decide

/-- C6 amended: a filesystem write failure during append raises an
exception that `log_data` does not catch (only `SerialException` is
handled), terminating the read loop: the failing line and everything
after it are dropped and no later batch is processed; every Sink
event the loop did emit is a plain line event, so the failure itself
is never surfaced to the Sink. -/
theorem write_failure_kills_read_loop (fs_ok : List Char → Bool) (s : LoggerState)
    (c : List Char) (cs : List (List Char))
    (h : (log_data_chunk_fallible fs_ok s c).crashed = true) :
    log_data_run fs_ok s (c :: cs) = log_data_chunk_fallible fs_ok s c ∧
    ∀ e ∈ (log_data_chunk_fallible fs_ok s c).events, ∃ l, e = Event.line l := by
  constructor
  · simp [log_data_run, h]
  · exact log_data_chunk_fallible_events_are_lines fs_ok s c

/-- C6 witness: the amended theorem applied to the concrete
write-failure scenario, with a further batch "d\n" that is indeed
never processed. -/
theorem write_failure_kills_read_loop_witness :
    (log_data_chunk_fallible fs_fail_b write_failure_start ("a\nb\nc\n".toList)).crashed
        = true ∧
    (log_data_run fs_fail_b write_failure_start [("a\nb\nc\n".toList), ("d\n".toList)] =
        log_data_chunk_fallible fs_fail_b write_failure_start ("a\nb\nc\n".toList) ∧
      ∀ e ∈ (log_data_chunk_fallible fs_fail_b write_failure_start
          ("a\nb\nc\n".toList)).events, ∃ l, e = Event.line l) :=
  ⟨by decide,
    write_failure_kills_read_loop fs_fail_b write_failure_start _ _ (by decide)⟩

/-- C7 counterexample: a transport failure with `last_data_received`
at 0 and the monitor thread's loop running at times 10 and 70 during
the 600-unit backoff yields a Sink trace in which a Connected (green)
and a Stale (yellow) health event are delivered strictly between the
Disconnected (red) event and the reconnection-success green — so
Disconnected does not override Stale/Connected during the
Failed/Reconnecting interval. -/
theorem disconnected_override_counterexample :
    failed_interval_trace 0 [10, 70] =
      [Event.line ("Serial connection lost.\n".toList), Event.status Color.red,
        Event.status Color.green, Event.status Color.yellow,
        Event.status Color.green] ∧
    Event.status Color.yellow ∈ failed_interval_trace 0 [10, 70] := by
  have h : failed_interval_trace 0 [10, 70] =
      [Event.line ("Serial connection lost.\n".toList), Event.status Color.red,
        Event.status Color.green, Event.status Color.yellow,
        Event.status Color.green] := by
    norm_num [failed_interval_trace, check_connection_status_tick]
  exact ⟨h, by rw [h]; decide⟩

/-- C7 amended: the connection monitor keeps running during the
Failed/Reconnecting interval and each of its ticks delivers a
Connected or Stale event to the Sink, computed from elapsed time
alone — the pending Disconnected state does not suppress them. -/
theorem monitor_ticks_run_during_backoff (last : ℚ) (ticks : List ℚ) (t : ℚ)
    (h : t ∈ ticks) :
    Event.status (check_connection_status_tick t last) ∈ failed_interval_trace last ticks ∧
    (check_connection_status_tick t last = Color.green ∨
      check_connection_status_tick t last = Color.yellow) := by
  constructor
  · unfold failed_interval_trace
    simp only [List.mem_append, List.mem_map, List.mem_cons]
    exact Or.inl (Or.inr ⟨t, h, rfl⟩)
  · unfold check_connection_status_tick
    split_ifs
    · right; rfl
    · left; rfl

/-- C7 witness: the amended theorem at a concrete tick time 70 inside
the backoff window. -/
theorem monitor_ticks_run_during_backoff_witness :
    (70 : ℚ) ∈ [(70 : ℚ)] ∧
    (Event.status (check_connection_status_tick 70 0) ∈ failed_interval_trace 0 [70] ∧
      (check_connection_status_tick 70 0 = Color.green ∨
        check_connection_status_tick 70 0 = Color.yellow)) :=
  ⟨List.mem_singleton.mpr rfl,
    monitor_ticks_run_during_backoff 0 [70] 70 (List.mem_singleton.mpr rfl)⟩

/-- C8 counterexample: stopping an active session when the chmod
fails makes the exception escape `stop_logging` — nothing catches or
reports it — refuting "the failure is reported ... without an
unhandled error escaping the stop operation".  The error state shows
the flag was cleared and the port closed before the chmod raised. -/
theorem stop_chmod_failure_counterexample :
    stop_logging false stop_scenario_state =
      Except.error
        { stop_scenario_state with is_logging := false, serial_port := some false } := rfl

/-- C8 amended: stopping a session clears the active flag, closes the
device handle if one exists, and attempts to set the active file
read-only; when the permission change succeeds the file is marked
read-only, and when it fails the exception propagates out of
`stop_logging` unreported — but the flag is already cleared and the
handle already closed, since both precede the chmod. -/
theorem stop_logging_teardown (s : LoggerState) :
    (∃ s1, stop_logging true s = Except.ok s1 ∧ s1.is_logging = false ∧
      s1.serial_port ≠ some true ∧ s.log_file ∈ s1.read_only_files) ∧
    (∃ s2, stop_logging false s = Except.error s2 ∧ s2.is_logging = false ∧
      s2.serial_port ≠ some true ∧ s2.read_only_files = s.read_only_files) := by
  cases hp : s.serial_port with
  | none =>
      refine ⟨⟨{ s with is_logging := false
                        read_only_files := s.read_only_files ++ [s.log_file] },
          ?_, rfl, ?_, ?_⟩,
        ⟨{ s with is_logging := false }, ?_, rfl, ?_, rfl⟩⟩
      · simp [stop_logging, hp]
      · simp [hp]
      · simp
      · simp [stop_logging, hp]
      · simp [hp]
  | some b =>
      refine ⟨⟨{ s with is_logging := false
                        serial_port := some false
                        read_only_files := s.read_only_files ++ [s.log_file] },
          ?_, rfl, ?_, ?_⟩,
        ⟨{ s with is_logging := false, serial_port := some false }, ?_, rfl, ?_, rfl⟩⟩
      · simp [stop_logging, hp]
      · simp
      · simp
      · simp [stop_logging, hp]
      · simp

/-- C9: after a transport failure with the handle closed, the session
sleeps the fixed 600-unit backoff before reopening the device, and on
success the active log file pointer, the file contents, the
permissions, the tracked size and the logging flag are all unchanged:
reconnection creates no new log file and the read loop resumes on the
same file. -/
theorem reconnect_preserves_log_continuity (s : LoggerState)
    (h : s.serial_port = some false) :
    ∃ s1, reconnect_after_delay s =
        Except.ok (s1,
          [Event.sleepFor 600, Event.reopen, Event.status Color.green]) ∧
      s1.log_file = s.log_file ∧ s1.files = s.files ∧
      s1.read_only_files = s.read_only_files ∧
      s1.current_log_size = s.current_log_size ∧
      s1.is_logging = s.is_logging ∧ s1.serial_port = some true := by
  refine ⟨{ s with serial_port := some true }, ?_, rfl, rfl, rfl, rfl, rfl, rfl⟩
  simp [reconnect_after_delay, h]

/-- C9 witness: the reconnection theorem at the concrete
post-failure session state. -/
theorem reconnect_preserves_log_continuity_witness :
    reconnect_scenario_state.serial_port = some false ∧
    (∃ s1, reconnect_after_delay reconnect_scenario_state =
        Except.ok (s1,
          [Event.sleepFor 600, Event.reopen, Event.status Color.green]) ∧
      s1.log_file = reconnect_scenario_state.log_file ∧
      s1.files = reconnect_scenario_state.files ∧
      s1.read_only_files = reconnect_scenario_state.read_only_files ∧
      s1.current_log_size = reconnect_scenario_state.current_log_size ∧
      s1.is_logging = reconnect_scenario_state.is_logging ∧
      s1.serial_port = some true) :=
  ⟨rfl, reconnect_preserves_log_continuity reconnect_scenario_state rfl⟩

/-- C10: the tracked byte counter is never reset: over any sequence
of appends and rotation checks from a fresh session, it equals the
cumulative number of bytes appended across all log files — and, as
the concrete post-rotation scenario shows, it differs from the size
of the currently active file. -/
theorem current_log_size_is_cumulative :
    (∀ (config : Option ℕ) (t0 : ℚ) (ops : List StoreOp),
        (run_store_ops (create_new_log_file (init_state config t0)) ops).current_log_size
          = total_appended ops) ∧
    (run_store_ops size_scenario_start size_scenario_ops).current_log_size ≠
      ((run_store_ops size_scenario_start size_scenario_ops).files.getD
          (run_store_ops size_scenario_start size_scenario_ops).log_file []).length := by
  constructor
  · intro config t0 ops
    rw [run_store_ops_size]
    simp [create_new_log_file, init_state]
  · decide

end SerialPortLogger
